import Mathlib

/-!
Shallow embedding of the Apple in-app-purchase validation module
(src/lib/apple.js) and proofs about its observable behaviour.

The JavaScript module is embedded as executable Lean functions:

* optional JSON fields become `Option` values, and JS truthiness of those
  fields is modelled explicitly (`jsTruthy`, `jsTruthyInt`);
* `parseInt(s, 10)` becomes `jsParseInt : String -> Option Int`, where
  `none` models the JS NaN result, and the NaN-poisoned comparison used by
  the dedup loop becomes `jsLtOpt`;
* the HTTP transport is an oracle input: each endpoint call is summarised
  by a `TransportResult` (the `(error, response-body)` pair the `request`
  callback receives);
* the callback-style control flow of `validatePurchase` (async.series over
  `tryProd` and `trySandbox`, then `done`) is replayed as a pure function
  from the two transport oracles to the final callback arguments; a `none`
  overall result models a thrown JS TypeError (field access on
  `undefined`), which in the source can only happen when a no-error
  transport callback carries no body, or a success-status payload carries
  no `receipt` object;
* the shared constants module (`../constants`) is not part of the given
  sources, so its three values used here are modelled from the spec.
-/

namespace AppleIAP

/-- JS truthiness of an optional string field: `undefined` and the empty
string are falsy, every other string is truthy. -/
def jsTruthy : Option String → Bool
  | none => false
  | some s => s ≠ ""

/-- JS truthiness of an optional integer (a number that may be NaN):
NaN (`none`) and `0` are falsy. -/
def jsTruthyInt : Option Int → Bool
  | none => false
  | some v => v ≠ 0

/-- JS `<` on numbers that may be NaN (`none`): any comparison involving
NaN is false. -/
def jsLtOpt : Option Int → Option Int → Bool
  | some a, some b => a < b
  | _, _ => false

/-- Accumulate a base-10 digit list into a natural number. -/
def parseDigits : List Char → Nat → Nat
  | [], acc => acc
  | c :: rest, acc => parseDigits rest (acc * 10 + (c.toNat - 48))

/-- JS `parseInt(s, 10)`: skip leading whitespace, read an optional sign,
then the longest digit prefix; `none` models the NaN result when no digit
is found. -/
def jsParseInt (s : String) : Option Int :=
  let cs := s.data.dropWhile Char.isWhitespace
  let signAndRest : Int × List Char :=
    match cs with
    | '-' :: rest => (-1, rest)
    | '+' :: rest => (1, rest)
    | _ => (1, cs)
  let ds := signAndRest.2.takeWhile Char.isDigit
  if ds.isEmpty then none
  else some (signAndRest.1 * (parseDigits ds 0 : Int))

/-- JS `parseInt` applied to a possibly absent field:
`parseInt(undefined, 10)` is NaN. -/
def jsParseIntOpt : Option String → Option Int
  | none => none
  | some s => jsParseInt s

/-- The static errorMap of src/lib/apple.js, lines 5-15, keyed by the Apple
status code. -/
def errorMap : Int → Option String
  | 21000 => some "The App Store could not read the JSON object you provided."
  | 21002 => some "The data in the receipt-data property was malformed."
  | 21003 => some "The receipt could not be authenticated."
  | 21004 => some "The shared secret you provided does not match the shared secret on file for your account."
  | 21005 => some "The receipt server is not currently available."
  | 21006 => some "This receipt is valid but the subscription has expired. When this status code is returned to your server, the receipt data is also decoded and returned as part of the response."
  | 21007 => some "This receipt is a sandbox receipt, but it was sent to the production service for verification."
  | 21008 => some "This receipt is a production receipt, but it was sent to the sandbox service for verification."
  | 2 => some "The receipt is valid, but purchased nothing."
  | _ => none

/-- The lookup pattern used on lines 107, 115, 149 and 156 of the source:
the mapped message, defaulting to the string Unknown. -/
def errorMapLookup (st : Int) : String :=
  (errorMap st).getD "Unknown"

/-- Modelled from the spec: `constants.VALIDATION.SUCCESS` from the missing
`../constants` module; per the spec, status 0 means success. -/
def VALIDATION_SUCCESS : Int := 0

/-- Modelled from the spec: `constants.VALIDATION.POSSIBLE_HACK` from the
missing `../constants` module; the spec maps the dedicated possible-hack
status to the ErrorTable entry for status 2 (valid receipt, purchased
nothing). -/
def VALIDATION_POSSIBLE_HACK : Int := 2

/-- Modelled from the spec: `constants.SERVICES.APPLE` from the missing
`../constants` module; an opaque constant tag identifying the Apple
service. -/
def SERVICES_APPLE : String := "apple"

/-- A raw purchase item as read by the normalizer: the fields of a member
of the in-app list or of the latest-receipt-info list that the code
accesses. The original transaction id is used as the dedup map key. -/
structure Item where
  original_transaction_id : String
  transaction_id : Option String
  product_id : Option String
  original_purchase_date_ms : Option String
  purchase_date_ms : Option String
  quantity : Option String
  expires_date_ms : Option String
  expires_date : Option String
deriving DecidableEq, Repr

/-- The fields of `purchase.receipt` that src/lib/apple.js reads. A
present-but-empty in-app list is `some []`; JS arrays are always truthy,
so truthiness of the in-app field is `Option.isSome`. -/
structure AppleReceipt where
  in_app : Option (List Item)
  bundle_id : Option String
  transaction_id : Option String
  product_id : Option String
  original_purchase_date_ms : Option String
  quantity : Option String
deriving DecidableEq, Repr

/-- The decoded Apple response payload: the fields of the `data` object
that the module reads or writes. The legacy extraction path reads
`expires_date_ms` and `expires_date` off this object (line 234 passes the
whole payload to getSubscriptionExpireDate), and handleResponse writes
`service`, `status` and `message` on it. -/
structure ApplePayload where
  status : Int
  receipt : Option AppleReceipt
  latest_receipt_info : Option (List Item)
  message : Option String
  service : Option String
  expires_date_ms : Option String
  expires_date : Option String
deriving DecidableEq, Repr

/-- The normalized PurchaseRecord built by getPurchaseData (lines 216-223
and 228-235). `quantity` is a parsed number that may be NaN (`none`);
`expirationDate` likewise, with `some 0` for a non-subscription item. -/
structure PurchaseRecord where
  bundleId : Option String
  transactionId : Option String
  productId : Option String
  purchaseDate : Option String
  quantity : Option Int
  expirationDate : Option Int
deriving DecidableEq, Repr

/-- getSubscriptionExpireDate (lines 239-247), applied to the two expiry
fields of its argument object: prefer a truthy `expires_date_ms`, then a
truthy `expires_date`, else the number 0. -/
def getSubscriptionExpireDate (ems eds : Option String) : Option Int :=
  if jsTruthy ems then jsParseIntOpt ems
  else if jsTruthy eds then jsParseIntOpt eds
  else some 0

/-- One entry of the `tids` dedup object: the parsed purchase date last
stored for an original transaction id, and a slot index into `data`. -/
structure TidEntry where
  time : Option Int
  index : Nat
deriving DecidableEq, Repr

/-- Lookup in the `tids` object, modelled as an association list. -/
def alistLookup (m : List (String × TidEntry)) (k : String) : Option TidEntry :=
  (m.find? (fun p => p.1 = k)).map Prod.snd

/-- Assignment `tids[tid] = v`: replace the binding if the key is present,
otherwise add it. -/
def alistSet : List (String × TidEntry) → String → TidEntry → List (String × TidEntry)
  | [], k, v => [(k, v)]
  | (k', v') :: rest, k, v =>
      if k' = k then (k, v) :: rest else (k', v') :: alistSet rest k v

/-- JS array assignment `data[index] = x` as used by the normalizer: the
loop only ever uses `index` at most equal to the current length, so this
either overwrites an existing slot or appends. -/
def listSet {α : Type} (l : List α) (i : Nat) (x : α) : List α :=
  if i < l.length then l.set i x else l ++ [x]

/-- The mutable state of the normalizer loop: the output array `data` and
the dedup object `tids`. -/
structure NormState where
  data : List PurchaseRecord
  tids : List (String × TidEntry)
deriving DecidableEq, Repr

/-- The record built from a working-list item on lines 216-223. -/
def normalizeItem (bundleId : Option String) (item : Item) : PurchaseRecord :=
  { bundleId := bundleId
    transactionId := item.transaction_id
    productId := item.product_id
    purchaseDate := item.original_purchase_date_ms
    quantity := jsParseIntOpt item.quantity
    expirationDate := getSubscriptionExpireDate item.expires_date_ms item.expires_date }

/-- The skip test on lines 205-208: `options.ignoreExpired && exp &&
Date.now() - exp >= 0`, with JS truthiness of `exp` (NaN and 0 falsy). -/
def isExpiredSkip (now : Int) (ignoreExpired : Bool) (exp : Option Int) : Bool :=
  ignoreExpired && jsTruthyInt exp &&
    (match exp with
     | some v => decide (now - v ≥ 0)
     | none => false)

/-- One iteration of the normalizer loop body (lines 198-224) over the
working list, threading the `data` array and the `tids` object. -/
def stepModern (now : Int) (ignoreExpired : Bool) (bundleId : Option String)
    (s : NormState) (item : Item) : NormState :=
  let pdate := jsParseIntOpt item.purchase_date_ms
  let exp := getSubscriptionExpireDate item.expires_date_ms item.expires_date
  if isExpiredSkip now ignoreExpired exp then s
  else
    let index :=
      match alistLookup s.tids item.original_transaction_id with
      | some e => if jsLtOpt e.time pdate then e.index else s.data.length
      | none => s.data.length
    { data := listSet s.data index (normalizeItem bundleId item)
      tids := alistSet s.tids item.original_transaction_id ⟨pdate, s.data.length⟩ }

/-- The iOS-6+ extraction loop over the working list, started from an empty
array and an empty dedup object. -/
def modernExtract (now : Int) (ignoreExpired : Bool) (bundleId : Option String)
    (list : List Item) : List PurchaseRecord :=
  (list.foldl (stepModern now ignoreExpired bundleId) ⟨[], []⟩).data

/-- The options argument of getPurchaseData. -/
structure GPOptions where
  ignoreExpired : Bool
deriving DecidableEq, Repr

/-- getPurchaseData (lines 185-237). `now` stands for the impure
`Date.now()` call; `none` is the JS null result for an absent purchase or
receipt. On the modern path the working list is the in-app list,
concatenated with the latest-receipt-info list when that field holds an
array; on the legacy path a single record is synthesized from the
top-level receipt fields, with the expiry fallback read off the payload
object itself. -/
def getPurchaseData (now : Int) (purchase : Option ApplePayload)
    (options : Option GPOptions) : Option (List PurchaseRecord) :=
  match purchase with
  | none => none
  | some p =>
    match p.receipt with
    | none => none
    | some r =>
      match r.in_app with
      | some inApp =>
        let list :=
          match p.latest_receipt_info with
          | some lri => inApp ++ lri
          | none => inApp
        let ignore :=
          match options with
          | some o => o.ignoreExpired
          | none => false
        some (modernExtract now ignore r.bundle_id list)
      | none =>
        some [{ bundleId := r.bundle_id
                transactionId := r.transaction_id
                productId := r.product_id
                purchaseDate := r.original_purchase_date_ms
                quantity := jsParseIntOpt r.quantity
                expirationDate := getSubscriptionExpireDate p.expires_date_ms p.expires_date }]

/-- What one `send` callback receives from the transport: the request
error and the parsed response body. -/
structure TransportResult where
  error : Option String
  data : Option ApplePayload
deriving DecidableEq, Repr

/-- The synthesized validatedData object `{status, message}` built on the
error paths of tryProd and trySandbox (lines 105-108, 117-120, 147-150,
158-161): only those two fields are set. -/
def mkStatusData (st : Int) : ApplePayload :=
  { status := st
    receipt := none
    latest_receipt_info := none
    message := some (errorMapLookup st)
    service := none
    expires_date_ms := none
    expires_date := none }

/-- The status stored on a transport-error path, line 104 and line 146:
`data ? data.status : 1`. -/
def errStatusOf : Option ApplePayload → Int
  | some d => d.status
  | none => 1

/-- Outcome of the tryProd task (lines 96-134) as seen by async.series. -/
inductive ProdOutcome where
  | err (e : String) (vd : ApplePayload)
  | fallthrough
  | valid (vd : ApplePayload)
  | crash
deriving DecidableEq, Repr

/-- tryProd: on a transport error, build the synthesized validatedData and
fail with the transport error; on a status greater than 0 other than 21007
and 21002, fail with the mapped message; on 21007 or 21002 fall through to
the sandbox task; otherwise record the payload as validated. A no-error
callback without a body crashes on the `data.status` access. -/
def tryProd (r : TransportResult) : ProdOutcome :=
  match r.error with
  | some e => .err e (mkStatusData (errStatusOf r.data))
  | none =>
    match r.data with
    | none => .crash
    | some d =>
      if 0 < d.status ∧ d.status ≠ 21007 ∧ d.status ≠ 21002 then
        .err (errorMapLookup d.status) (mkStatusData d.status)
      else if d.status = 21007 ∨ d.status = 21002 then
        .fallthrough
      else
        .valid d

/-- Outcome of the sandbox `send` (lines 140-168): same shape as tryProd
but any status greater than 0 is an error, with no further fallback. -/
inductive SandOutcome where
  | err (e : String) (vd : ApplePayload)
  | valid (vd : ApplePayload)
  | crash
deriving DecidableEq, Repr

/-- The body of trySandbox once it has decided to send (lines 140-168). -/
def trySandbox (r : TransportResult) : SandOutcome :=
  match r.error with
  | some e => .err e (mkStatusData (errStatusOf r.data))
  | none =>
    match r.data with
    | none => .crash
    | some d =>
      if 0 < d.status then
        .err (errorMapLookup d.status) (mkStatusData d.status)
      else
        .valid d

/-- handleResponse (lines 249-275), as a function from the payload it
mutates to the pair handed to the callback: first the cb error, then the
payload after mutation. It always sets the service tag; on the success
status with a present-but-empty in-app list it overwrites status and
message and fails; on the success status otherwise it succeeds with the
payload untouched beyond the service tag; on any other status it
overwrites message (note the misspelled Unkown fallback on line 270) and
fails. A success-status payload without a receipt object crashes (`none`)
on the in-app access. -/
def handleResponse (d : ApplePayload) : Option (Option String × ApplePayload) :=
  let d1 := { d with service := some SERVICES_APPLE }
  if d1.status = VALIDATION_SUCCESS then
    match d1.receipt with
    | none => none
    | some r =>
      match r.in_app with
      | some l =>
        if l.length = 0 then
          some (some "failed to validate for empty purchased list",
                { d1 with status := VALIDATION_POSSIBLE_HACK
                          message := errorMap VALIDATION_POSSIBLE_HACK })
        else
          some (none, d1)
      | none => some (none, d1)
  else
    some (some "failed to validate purchase",
          { d1 with message := some ((errorMap d1.status).getD "Unkown") })

/-- The pair of arguments validatePurchase hands to its callback. -/
structure CbResult where
  error : Option String
  validatedData : Option ApplePayload
deriving DecidableEq, Repr

/-- validatePurchase (lines 76-183) as a function of the two transport
oracles: async.series runs tryProd, then trySandbox (which returns
immediately when the production attempt already validated), aborting on
the first task error; `done` passes a task error straight through with the
current validatedData, and otherwise routes the validated payload through
handleResponse. `none` models a thrown TypeError. -/
def validatePurchaseRun (prodR sandR : TransportResult) : Option CbResult :=
  match tryProd prodR with
  | .crash => none
  | .err e vd => some ⟨some e, some vd⟩
  | .valid vd =>
    match handleResponse vd with
    | none => none
    | some (e, d') => some ⟨e, some d'⟩
  | .fallthrough =>
    match trySandbox sandR with
    | .crash => none
    | .err e vd => some ⟨some e, some vd⟩
    | .valid vd =>
      match handleResponse vd with
      | none => none
      | some (e, d') => some ⟨e, some d'⟩

/-- How many times the sandbox endpoint is sent a request during one
validatePurchase call: trySandbox returns without sending when the
production attempt already validated (line 137), and async.series never
reaches it when tryProd passed an error (lines 109, 121). -/
def sandboxAttempts (prodR : TransportResult) : Nat :=
  match tryProd prodR with
  | .fallthrough => 1
  | _ => 0

/-- A minimal Apple payload carrying only a status, as returned by a mock
endpoint. -/
def payload (st : Int) : ApplePayload :=
  { status := st
    receipt := none
    latest_receipt_info := none
    message := none
    service := none
    expires_date_ms := none
    expires_date := none }

/-- A working-list item for transaction T1 with purchase date 200. -/
def dupItemA : Item :=
  ⟨"T1", some "ta", some "p1", some "1000", some "200", some "1", none, none⟩

/-- A second working-list item for the same transaction T1, with the older
purchase date 100, appearing later in list order. -/
def dupItemB : Item :=
  ⟨"T1", some "tb", some "p2", some "1001", some "100", some "1", none, none⟩

/-- A modern-format payload whose in-app list holds the two duplicate T1
items, newer first. -/
def dupPayload : ApplePayload :=
  { payload 0 with
      receipt := some ⟨some [dupItemA, dupItemB], some "com.x", none, none, none, none⟩ }

/-- A success-status payload whose in-app list is present and empty. -/
def emptyInAppPayload : ApplePayload :=
  { payload 0 with
      receipt := some ⟨some [], some "com.x", none, none, none, none⟩ }

/-- A success-status payload whose receipt has no in-app list key. -/
def legacyReceipt : AppleReceipt :=
  ⟨none, some "com.x", some "1", some "p1", some "od", some "2"⟩

/-- The legacy-format payload around legacyReceipt. -/
def legacyPayload : ApplePayload :=
  { payload 0 with receipt := some legacyReceipt }

/-- An item whose expires-date-ms field is 500, used against a clock
reading 1000. -/
def expiredItem : Item :=
  ⟨"T1", some "t", some "p", some "od", some "100", some "1", some "500", none⟩

/-- What handleResponse hands back for a bare status-21003 payload. -/
def handled21003 : ApplePayload :=
  { payload 21003 with
      service := some SERVICES_APPLE
      message := some "The receipt could not be authenticated." }

/-- Setting a slot below the length keeps the written element in the
list. -/
theorem mem_set_of_lt {α : Type} (l : List α) (i : Nat) (x : α) (h : i < l.length) :
    x ∈ l.set i x := by
  induction l generalizing i with
  | nil => simp at h
  | cons a t ih =>
    cases i with
    | zero => simp
    | succ n => exact List.mem_cons_of_mem a (ih n (by simpa using h))

/-- The element written by the JS array assignment is always in the
resulting array. -/
theorem mem_listSet {α : Type} (l : List α) (i : Nat) (x : α) : x ∈ listSet l i x := by
  unfold listSet
  split
  · exact mem_set_of_lt _ _ _ (by assumption)
  · simp

/-- An item whose computed expiry is positive and not in the future is
skipped whole by the loop body when ignoreExpired is set: neither the
output array nor the dedup object changes. -/
theorem stepModern_skip (now v : Int) (b : Option String) (s : NormState) (item : Item)
    (hexp : getSubscriptionExpireDate item.expires_date_ms item.expires_date = some v)
    (hpos : 0 < v) (hpast : now - v ≥ 0) :
    stepModern now true b s item = s := by
  have hv : v ≠ 0 := by omega
  have hskip : isExpiredSkip now true
      (getSubscriptionExpireDate item.expires_date_ms item.expires_date) = true := by
    rw [hexp]; simp [isExpiredSkip, jsTruthyInt, hv, hpast]
  simp [stepModern, hskip]

/-- C2: the claimed invariant (at most one PurchaseRecord per distinct
originalTransactionId, with the larger purchaseDateMs winning in the slot
of the first-seen occurrence, and the dedup map left alone when the
existing entry is newer-or-equal) fails on the code. With a working list
holding T1 at purchaseDateMs 200 and then T1 at 100, the loop appends the
older duplicate at a second slot, so the output carries two records for
the single distinct id, and the dedup map entry is overwritten with the
older time and a dangling slot index. -/
theorem claim_C2 :
    getPurchaseData 0 (some dupPayload) none =
      some [normalizeItem (some "com.x") dupItemA, normalizeItem (some "com.x") dupItemB] ∧
    dupItemA.original_transaction_id = dupItemB.original_transaction_id ∧
    ([dupItemA, dupItemB].foldl (stepModern 0 false (some "com.x")) ⟨[], []⟩).tids =
      [("T1", ⟨some 100, 1⟩)] := by decide

/-- C5: the ErrorTable lookup returns the exact documented message for
each documented status code, and an undocumented code looks up as the
string Unknown; but the claim that every message the program renders for
an undocumented code is exactly Unknown fails on the code: the response
handler renders the misspelled fallback Unkown (line 270), reachable when
the production endpoint answers with a negative status such as -7. -/
theorem claim_C5 :
    errorMap 21000 = some "The App Store could not read the JSON object you provided." ∧
    errorMap 21002 = some "The data in the receipt-data property was malformed." ∧
    errorMap 21003 = some "The receipt could not be authenticated." ∧
    errorMap 21004 = some "The shared secret you provided does not match the shared secret on file for your account." ∧
    errorMap 21005 = some "The receipt server is not currently available." ∧
    errorMap 21006 = some "This receipt is valid but the subscription has expired. When this status code is returned to your server, the receipt data is also decoded and returned as part of the response." ∧
    errorMap 21007 = some "This receipt is a sandbox receipt, but it was sent to the production service for verification." ∧
    errorMap 21008 = some "This receipt is a production receipt, but it was sent to the sandbox service for verification." ∧
    errorMap 2 = some "The receipt is valid, but purchased nothing." ∧
    errorMapLookup 99999 = "Unknown" ∧
    errorMapLookup 1 = "Unknown" ∧
    validatePurchaseRun ⟨none, some (payload (-7))⟩ ⟨none, none⟩ =
      some ⟨some "failed to validate purchase",
            some { payload (-7) with
                     service := some SERVICES_APPLE
                     message := some "Unkown" }⟩ := by
  refine ⟨rfl, rfl, rfl, rfl, rfl, rfl, rfl, rfl, rfl, rfl, rfl, ?_⟩
  decide

/-- C1 (amended): when the production endpoint responds with status 21007
or 21002 the orchestrator makes exactly one sandbox attempt; when it
responds with any other status strictly greater than zero it makes zero
sandbox attempts and fails with an error carrying the exact mapped
message for that status, the same message stored on the partial
result. -/
theorem claim_C1 (d dp : ApplePayload) (sandR : TransportResult)
    (h0 : 0 < d.status) (h7 : d.status ≠ 21007) (h2 : d.status ≠ 21002)
    (hp : dp.status = 21007 ∨ dp.status = 21002) :
    validatePurchaseRun ⟨none, some d⟩ sandR =
      some ⟨some (errorMapLookup d.status), some (mkStatusData d.status)⟩ ∧
    sandboxAttempts ⟨none, some d⟩ = 0 ∧
    sandboxAttempts ⟨none, some dp⟩ = 1 := by
  refine ⟨?_, ?_, ?_⟩
  · simp [validatePurchaseRun, tryProd, h0, h7, h2]
  · simp [sandboxAttempts, tryProd, h0, h7, h2]
  · rcases hp with h | h <;> simp [sandboxAttempts, tryProd, h]

/-- Witness for C1 at status 21003 on production (mapped message shown
verbatim) and status 21007 for the one-sandbox-attempt half. -/
theorem claim_C1_witness :
    errorMapLookup 21003 = "The receipt could not be authenticated." ∧
    (validatePurchaseRun ⟨none, some (payload 21003)⟩ ⟨none, none⟩ =
      some ⟨some (errorMapLookup 21003), some (mkStatusData 21003)⟩ ∧
    sandboxAttempts ⟨none, some (payload 21003)⟩ = 0 ∧
    sandboxAttempts ⟨none, some (payload 21007)⟩ = 1) :=
  ⟨by decide,
   claim_C1 (payload 21003) (payload 21007) ⟨none, none⟩
     (by decide) (by decide) (by decide) (Or.inl rfl)⟩

/-- C1 counterexample: the nonzero production status -1 is outside the
fallback set, and indeed no sandbox attempt happens, but the call does not
fail with the mapped message for -1 (which would be Unknown): the
production attempt accepts the payload and the response handler later
fails generically, storing the misspelled fallback message. -/
theorem claim_C1_cex :
    validatePurchaseRun ⟨none, some (payload (-1))⟩ ⟨none, none⟩ =
      some ⟨some "failed to validate purchase",
            some { payload (-1) with
                     service := some SERVICES_APPLE
                     message := some "Unkown" }⟩ ∧
    (some "failed to validate purchase" : Option String) ≠ some (errorMapLookup (-1)) := by
  decide

/-- C8 (amended): a transport failure on either endpoint makes the call
fail carrying the transport error plus a partial result whose status is
the status of the parsed body accompanying the error when one is present
and the unclassified code 1 otherwise, with the message looked up in the
ErrorTable or Unknown; and a transport failure on production triggers no
sandbox attempt. -/
theorem claim_C8 (e e2 : String) (dOpt dOpt2 : Option ApplePayload)
    (sandR : TransportResult) (dp : ApplePayload)
    (hp : dp.status = 21007 ∨ dp.status = 21002) :
    validatePurchaseRun ⟨some e, dOpt⟩ sandR =
      some ⟨some e, some (mkStatusData (errStatusOf dOpt))⟩ ∧
    sandboxAttempts ⟨some e, dOpt⟩ = 0 ∧
    validatePurchaseRun ⟨none, some dp⟩ ⟨some e2, dOpt2⟩ =
      some ⟨some e2, some (mkStatusData (errStatusOf dOpt2))⟩ := by
  refine ⟨?_, ?_, ?_⟩
  · simp [validatePurchaseRun, tryProd]
  · simp [sandboxAttempts, tryProd]
  · rcases hp with h | h <;> simp [validatePurchaseRun, tryProd, trySandbox, h]

/-- Witness for C8: a bodyless transport failure on production, and one on
sandbox after a 21002 production answer; both store status 1 and message
Unknown. -/
theorem claim_C8_witness :
    validatePurchaseRun ⟨some "econnreset", none⟩ ⟨none, none⟩ =
      some ⟨some "econnreset", some (mkStatusData 1)⟩ ∧
    sandboxAttempts ⟨some "econnreset", none⟩ = 0 ∧
    validatePurchaseRun ⟨none, some (payload 21002)⟩ ⟨some "etimedout", none⟩ =
      some ⟨some "etimedout", some (mkStatusData 1)⟩ :=
  claim_C8 "econnreset" "etimedout" none none ⟨none, none⟩ (payload 21002) (Or.inr rfl)

/-- C8 counterexample: a transport error whose callback also carries a
parsed body with status 5 stores status 5 on the partial result, not the
unclassified code 1 the claim requires. -/
theorem claim_C8_cex :
    validatePurchaseRun ⟨some "boom", some (payload 5)⟩ ⟨none, none⟩ =
      some ⟨some "boom", some (mkStatusData 5)⟩ ∧
    (mkStatusData 5).status ≠ 1 := by decide

/-- C3: a validation in which Apple reports the success status and the
decoded receipt carries a present-but-empty in-app list never yields plain
success: whether the success payload came from the production attempt or
from the sandbox attempt after a wrong-environment production answer, the
call fails with the empty-purchased-list error, the payload status is
downgraded to the possible-hack code and its mapped message is stored. -/
theorem claim_C3 (d dp : ApplePayload) (r : AppleReceipt) (sandR : TransportResult)
    (h0 : d.status = VALIDATION_SUCCESS) (hr : d.receipt = some r)
    (hin : r.in_app = some []) (hp : dp.status = 21007 ∨ dp.status = 21002) :
    validatePurchaseRun ⟨none, some d⟩ sandR =
      some ⟨some "failed to validate for empty purchased list",
            some { d with
                     service := some SERVICES_APPLE
                     status := VALIDATION_POSSIBLE_HACK
                     message := errorMap VALIDATION_POSSIBLE_HACK }⟩ ∧
    validatePurchaseRun ⟨none, some dp⟩ ⟨none, some d⟩ =
      some ⟨some "failed to validate for empty purchased list",
            some { d with
                     service := some SERVICES_APPLE
                     status := VALIDATION_POSSIBLE_HACK
                     message := errorMap VALIDATION_POSSIBLE_HACK }⟩ := by
  have hs : d.status = 0 := h0
  constructor
  · simp [validatePurchaseRun, tryProd, hs, handleResponse, VALIDATION_SUCCESS, hr, hin]
  · rcases hp with h | h <;>
      simp [validatePurchaseRun, tryProd, trySandbox, h, hs, handleResponse,
            VALIDATION_SUCCESS, hr, hin]

/-- Witness for C3: a concrete success payload with an empty in-app list,
reaching the handler through production, and through sandbox after a
21007 production answer. -/
theorem claim_C3_witness :
    validatePurchaseRun ⟨none, some emptyInAppPayload⟩ ⟨none, none⟩ =
      some ⟨some "failed to validate for empty purchased list",
            some { emptyInAppPayload with
                     service := some SERVICES_APPLE
                     status := VALIDATION_POSSIBLE_HACK
                     message := errorMap VALIDATION_POSSIBLE_HACK }⟩ ∧
    validatePurchaseRun ⟨none, some (payload 21007)⟩ ⟨none, some emptyInAppPayload⟩ =
      some ⟨some "failed to validate for empty purchased list",
            some { emptyInAppPayload with
                     service := some SERVICES_APPLE
                     status := VALIDATION_POSSIBLE_HACK
                     message := errorMap VALIDATION_POSSIBLE_HACK }⟩ :=
  claim_C3 emptyInAppPayload (payload 21007)
    ⟨some [], some "com.x", none, none, none, none⟩ ⟨none, none⟩
    rfl rfl rfl (Or.inl rfl)

/-- C4 (amended): when the production endpoint returns status 0 the
sandbox endpoint is never invoked and, provided the payload carries a
receipt object whose in-app list is not present-and-empty, the overall
result is success carrying the production response (with the service tag
set on it), regardless of what sandbox would return. -/
theorem claim_C4 (d : ApplePayload) (r : AppleReceipt) (sandR : TransportResult)
    (h0 : d.status = VALIDATION_SUCCESS) (hr : d.receipt = some r)
    (hne : ∀ l, r.in_app = some l → l ≠ []) :
    validatePurchaseRun ⟨none, some d⟩ sandR =
      some ⟨none, some { d with service := some SERVICES_APPLE }⟩ ∧
    sandboxAttempts ⟨none, some d⟩ = 0 := by
  have hs : d.status = 0 := h0
  constructor
  · cases hin : r.in_app with
    | none => simp [validatePurchaseRun, tryProd, hs, handleResponse, VALIDATION_SUCCESS, hr, hin]
    | some l =>
      have hl : l ≠ [] := hne l hin
      have hlen : ¬ (l.length = 0) := by simpa [List.length_eq_zero] using hl
      simp [validatePurchaseRun, tryProd, hs, handleResponse, VALIDATION_SUCCESS, hr, hin, hlen]
  · simp [sandboxAttempts, tryProd, hs]

/-- Witness for C4: a status-0 production payload whose receipt has no
in-app list key succeeds without any sandbox attempt. -/
theorem claim_C4_witness :
    validatePurchaseRun ⟨none, some legacyPayload⟩ ⟨none, some (payload 21004)⟩ =
      some ⟨none, some { legacyPayload with service := some SERVICES_APPLE }⟩ ∧
    sandboxAttempts ⟨none, some legacyPayload⟩ = 0 :=
  claim_C4 legacyPayload legacyReceipt ⟨none, some (payload 21004)⟩
    rfl rfl (fun _ h => Option.noConfusion h)

/-- C4 counterexample: with a status-0 production response whose in-app
list is present and empty, the sanity check downgrades the call to a
failure, so the overall result is not success as the claim requires. -/
theorem claim_C4_cex :
    validatePurchaseRun ⟨none, some emptyInAppPayload⟩ ⟨none, none⟩ =
      some ⟨some "failed to validate for empty purchased list",
            some { emptyInAppPayload with
                     service := some SERVICES_APPLE
                     status := VALIDATION_POSSIBLE_HACK
                     message := errorMap VALIDATION_POSSIBLE_HACK }⟩ ∧
    (validatePurchaseRun ⟨none, some emptyInAppPayload⟩ ⟨none, none⟩).map
      CbResult.error ≠ some none := by decide

/-- C6: with ignoreExpired set, an item whose computed expiry is positive
and in the past (now minus expiry at least 0) is skipped whole: the loop
state is unchanged, and dropping it from the working list leaves the
extraction output identical; an item whose expiry lies in the future is
processed, its normalized record landing in the output array of that
step. -/
theorem claim_C6 (now v : Int) (b : Option String) (s : NormState) (item : Item)
    (hexp : getSubscriptionExpireDate item.expires_date_ms item.expires_date = some v) :
    (0 < v → now - v ≥ 0 → stepModern now true b s item = s) ∧
    (now < v → normalizeItem b item ∈ (stepModern now true b s item).data) ∧
    (∀ l1 l2, 0 < v → now - v ≥ 0 →
      modernExtract now true b (l1 ++ item :: l2) = modernExtract now true b (l1 ++ l2)) := by
  refine ⟨fun hpos hpast => stepModern_skip now v b s item hexp hpos hpast, ?_, ?_⟩
  · intro hfut
    have hnp : ¬ (now - v ≥ 0) := by omega
    have hskip : isExpiredSkip now true
        (getSubscriptionExpireDate item.expires_date_ms item.expires_date) = false := by
      rw [hexp]; simp [isExpiredSkip, hnp]
    simp only [stepModern, hskip, Bool.false_eq_true, if_false]
    exact mem_listSet _ _ _
  · intro l1 l2 hpos hpast
    unfold modernExtract
    rw [List.foldl_append, List.foldl_append, List.foldl_cons,
        stepModern_skip now v b _ item hexp hpos hpast]

/-- Witness for C6: against a clock reading 1000, the item expiring at 500
is skipped whole from the empty state, and the same item expiring at 2000
is recorded. -/
theorem claim_C6_witness :
    stepModern 1000 true (some "com.x") ⟨[], []⟩ expiredItem = ⟨[], []⟩ ∧
    normalizeItem (some "com.x") { expiredItem with expires_date_ms := some "2000" } ∈
      (stepModern 1000 true (some "com.x") ⟨[], []⟩
        { expiredItem with expires_date_ms := some "2000" }).data :=
  ⟨(claim_C6 1000 500 (some "com.x") ⟨[], []⟩ expiredItem (by decide)).1
      (by decide) (by decide),
   (claim_C6 1000 2000 (some "com.x") ⟨[], []⟩
      { expiredItem with expires_date_ms := some "2000" } (by decide)).2.1 (by decide)⟩

/-- C7: for a payload whose receipt lacks the in-app list key,
getPurchaseData returns exactly one record synthesized from the top-level
receipt fields, quantity parsed base 10 and the expiry computed by the
expires-date-ms, expires-date, 0 fallback rule (read off the payload
object, where the code applies it), and the options argument has no
effect on this path. -/
theorem claim_C7 (now : Int) (p : ApplePayload) (r : AppleReceipt) (opts : Option GPOptions)
    (hr : p.receipt = some r) (hin : r.in_app = none) :
    getPurchaseData now (some p) opts =
      some [{ bundleId := r.bundle_id
              transactionId := r.transaction_id
              productId := r.product_id
              purchaseDate := r.original_purchase_date_ms
              quantity := jsParseIntOpt r.quantity
              expirationDate := getSubscriptionExpireDate p.expires_date_ms p.expires_date }] ∧
    (∀ opts', getPurchaseData now (some p) opts = getPurchaseData now (some p) opts') := by
  constructor
  · simp [getPurchaseData, hr, hin]
  · intro opts'; simp [getPurchaseData, hr, hin]

/-- Witness for C7: the legacy payload with quantity the string 2 yields
one record with quantity the number 2 and expiry 0, and turning
ignoreExpired on changes nothing. -/
theorem claim_C7_witness :
    getPurchaseData 0 (some legacyPayload) (some ⟨true⟩) =
      some [⟨some "com.x", some "1", some "p1", some "od", some 2, some 0⟩] ∧
    getPurchaseData 0 (some legacyPayload) (some ⟨true⟩) =
      getPurchaseData 0 (some legacyPayload) none :=
  ⟨((claim_C7 0 legacyPayload legacyReceipt (some ⟨true⟩) rfl rfl).1).trans (by decide),
   (claim_C7 0 legacyPayload legacyReceipt (some ⟨true⟩) rfl rfl).2 none⟩

/-- Every validatedData built on a tryProd error path carries a message. -/
theorem tryProd_err_message (r : TransportResult) (e : String) (vd : ApplePayload)
    (h : tryProd r = .err e vd) : vd.message.isSome = true := by
  obtain ⟨re, rd⟩ := r
  cases re with
  | some e0 =>
    simp only [tryProd] at h
    injection h with h1 h2
    rw [← h2]; rfl
  | none =>
    cases rd with
    | none => simp only [tryProd] at h; exact ProdOutcome.noConfusion h
    | some d =>
      simp only [tryProd] at h
      split at h
      · injection h with h1 h2
        rw [← h2]; rfl
      · split at h
        · exact ProdOutcome.noConfusion h
        · exact ProdOutcome.noConfusion h

/-- Every validatedData built on a trySandbox error path carries a
message. -/
theorem trySandbox_err_message (r : TransportResult) (e : String) (vd : ApplePayload)
    (h : trySandbox r = .err e vd) : vd.message.isSome = true := by
  obtain ⟨re, rd⟩ := r
  cases re with
  | some e0 =>
    simp only [trySandbox] at h
    injection h with h1 h2
    rw [← h2]; rfl
  | none =>
    cases rd with
    | none => simp only [trySandbox] at h; exact SandOutcome.noConfusion h
    | some d =>
      simp only [trySandbox] at h
      split at h
      · injection h with h1 h2
        rw [← h2]; rfl
      · exact SandOutcome.noConfusion h

/-- Whenever handleResponse fails, the payload it hands back carries a
message. -/
theorem handleResponse_failure_message (d : ApplePayload) (e : String) (d' : ApplePayload)
    (h : handleResponse d = some (some e, d')) : d'.message.isSome = true := by
  by_cases hs : d.status = VALIDATION_SUCCESS
  · cases hrec : d.receipt with
    | none => simp [handleResponse, hs, hrec] at h
    | some r =>
      cases hin : r.in_app with
      | none => simp [handleResponse, hs, hrec, hin] at h
      | some l =>
        cases l with
        | nil =>
          simp [handleResponse, hs, hrec, hin] at h
          rcases h with ⟨h1, h2⟩
          subst h2; rfl
        | cons a t => simp [handleResponse, hs, hrec, hin] at h
  · simp [handleResponse, hs] at h
    rcases h with ⟨h1, h2⟩
    subst h2; rfl

/-- C9 (amended): every failure path of validatePurchase hands the caller
both an error and a partial ValidationResult that carries a status (always
present on the payload) and a message; the Apple service tag, however, is
only attached on failures that pass through the response handler. -/
theorem claim_C9 (prodR sandR : TransportResult) (res : CbResult) (e : String)
    (hrun : validatePurchaseRun prodR sandR = some res) (herr : res.error = some e) :
    ∃ vd, res.validatedData = some vd ∧ vd.message.isSome = true := by
  unfold validatePurchaseRun at hrun
  cases hP : tryProd prodR with
  | crash => simp only [hP] at hrun; exact Option.noConfusion hrun
  | err e0 vd =>
    simp only [hP] at hrun
    obtain rfl := (Option.some.inj hrun).symm
    exact ⟨vd, rfl, tryProd_err_message prodR e0 vd hP⟩
  | valid vd =>
    simp only [hP] at hrun
    cases hH : handleResponse vd with
    | none => simp only [hH] at hrun; exact Option.noConfusion hrun
    | some pr =>
      obtain ⟨e1, d'⟩ := pr
      simp only [hH] at hrun
      obtain rfl := (Option.some.inj hrun).symm
      refine ⟨d', rfl, ?_⟩
      have he1 : e1 = some e := herr
      subst he1
      exact handleResponse_failure_message vd e d' hH
  | fallthrough =>
    simp only [hP] at hrun
    cases hS : trySandbox sandR with
    | crash => simp only [hS] at hrun; exact Option.noConfusion hrun
    | err e0 vd =>
      simp only [hS] at hrun
      obtain rfl := (Option.some.inj hrun).symm
      exact ⟨vd, rfl, trySandbox_err_message sandR e0 vd hS⟩
    | valid vd =>
      simp only [hS] at hrun
      cases hH : handleResponse vd with
      | none => simp only [hH] at hrun; exact Option.noConfusion hrun
      | some pr =>
        obtain ⟨e1, d'⟩ := pr
        simp only [hH] at hrun
        obtain rfl := (Option.some.inj hrun).symm
        refine ⟨d', rfl, ?_⟩
        have he1 : e1 = some e := herr
        subst he1
        exact handleResponse_failure_message vd e d' hH

/-- Witness for C9 at the concrete failing run for production status
21003. -/
theorem claim_C9_witness :
    ∃ vd, (CbResult.mk (some (errorMapLookup 21003))
            (some (mkStatusData 21003))).validatedData = some vd ∧
          vd.message.isSome = true :=
  claim_C9 ⟨none, some (payload 21003)⟩ ⟨none, none⟩
    ⟨some (errorMapLookup 21003), some (mkStatusData 21003)⟩
    (errorMapLookup 21003) (by decide) rfl

/-- C9 counterexample: the partial result of the status-21003 failure path
carries no Apple service tag, since that path bypasses the response
handler, contradicting the claim that every failure result contains the
service tag. -/
theorem claim_C9_cex :
    validatePurchaseRun ⟨none, some (payload 21003)⟩ ⟨none, none⟩ =
      some ⟨some (errorMapLookup 21003), some (mkStatusData 21003)⟩ ∧
    (mkStatusData 21003).service = none := by decide

/-- C10 (amended): the response handler hands the callback the payload it
was given, updated as follows: it always sets the service field; on the
success status with a present-but-empty in-app list it additionally
overwrites status and message and fails; on the success status otherwise
it changes nothing else and succeeds; on a nonzero status it additionally
overwrites message with the mapped message or the misspelled fallback and
fails; no other field of the payload changes. -/
theorem claim_C10 (d : ApplePayload) (e : Option String) (d' : ApplePayload)
    (h : handleResponse d = some (e, d')) :
    d'.receipt = d.receipt ∧
    d'.latest_receipt_info = d.latest_receipt_info ∧
    d'.expires_date_ms = d.expires_date_ms ∧
    d'.expires_date = d.expires_date ∧
    d'.service = some SERVICES_APPLE ∧
    (∀ r, d.status = VALIDATION_SUCCESS → d.receipt = some r → r.in_app = some [] →
      d'.status = VALIDATION_POSSIBLE_HACK ∧
      d'.message = errorMap VALIDATION_POSSIBLE_HACK ∧
      e = some "failed to validate for empty purchased list") ∧
    (d.status = VALIDATION_SUCCESS → (∀ r, d.receipt = some r → r.in_app ≠ some []) →
      d'.status = d.status ∧ d'.message = d.message ∧ e = none) ∧
    (d.status ≠ VALIDATION_SUCCESS →
      d'.status = d.status ∧
      d'.message = some ((errorMap d.status).getD "Unkown") ∧
      e = some "failed to validate purchase") := by
  obtain ⟨st, rec, lri, msg, srv, ems, eds⟩ := d
  by_cases hs : st = VALIDATION_SUCCESS
  · subst hs
    cases rec with
    | none => simp [handleResponse] at h
    | some r =>
      obtain ⟨ia, bid, tid, pid, opdm, q⟩ := r
      cases ia with
      | none =>
        simp [handleResponse] at h
        rcases h with ⟨h1, h2⟩
        subst h1; subst h2
        refine ⟨rfl, rfl, rfl, rfl, rfl, ?_, ?_, ?_⟩
        · intro r' hs' hr' hin'
          obtain rfl := Option.some.inj hr'
          simp at hin'
        · intro _ _; exact ⟨rfl, rfl, rfl⟩
        · intro hns; exact absurd rfl hns
      | some l =>
        cases l with
        | nil =>
          simp [handleResponse] at h
          rcases h with ⟨h1, h2⟩
          subst h1; subst h2
          refine ⟨rfl, rfl, rfl, rfl, rfl, ?_, ?_, ?_⟩
          · intro r' _ _ _; exact ⟨rfl, rfl, rfl⟩
          · intro _ hne; exact absurd rfl (hne _ rfl)
          · intro hns; exact absurd rfl hns
        | cons a t =>
          simp [handleResponse] at h
          rcases h with ⟨h1, h2⟩
          subst h1; subst h2
          refine ⟨rfl, rfl, rfl, rfl, rfl, ?_, ?_, ?_⟩
          · intro r' hs' hr' hin'
            obtain rfl := Option.some.inj hr'
            simp at hin'
          · intro _ _; exact ⟨rfl, rfl, rfl⟩
          · intro hns; exact absurd rfl hns
  · simp [handleResponse, hs] at h
    rcases h with ⟨h1, h2⟩
    subst h1; subst h2
    refine ⟨rfl, rfl, rfl, rfl, rfl, ?_, ?_, ?_⟩
    · intro r' hs' _ _; exact absurd hs' hs
    · intro hs' _; exact absurd hs' hs
    · intro _; exact ⟨rfl, rfl, rfl⟩

/-- Witness for C10 at a bare status-21003 payload: the frame fields are
untouched, the service tag is set, and the nonzero-status case applies. -/
theorem claim_C10_witness :
    handled21003.receipt = (payload 21003).receipt ∧
    handled21003.service = some SERVICES_APPLE ∧
    (handled21003.status = (payload 21003).status ∧
     handled21003.message = some ((errorMap (payload 21003).status).getD "Unkown") ∧
     (some "failed to validate purchase" : Option String) =
       some "failed to validate purchase") := by
  have h := claim_C10 (payload 21003) (some "failed to validate purchase")
    handled21003 (by decide)
  exact ⟨h.1, h.2.2.2.2.1, h.2.2.2.2.2.2.2 (by decide)⟩

/-- C10 counterexample: on a nonzero-status call, which is not the
empty-purchase-list path, the handler overwrites the message field as
well, contradicting the claim that only the service field is set there. -/
theorem claim_C10_cex :
    handleResponse { payload 21003 with message := some "m" } =
      some (some "failed to validate purchase",
            { payload 21003 with
                message := some "The receipt could not be authenticated."
                service := some SERVICES_APPLE }) ∧
    (some "The receipt could not be authenticated." : Option String) ≠ some "m" := by
  decide

end AppleIAP
